import Mathlib

/-
Shallow embedding of cxx-async2, src/cxx-async/include/rust/cxx_async.h.

The embedding is typed per future: the Rust-side yield/result type of a future
is a Lean type parameter R.  Machine-level details that the claims depend on
are kept: the enum tag values of the status codes (the C++ code stores the
result of a static_cast between the two enums), the union result slot of
RustFutureReceiver, and the manual reference count of SuspendedCoroutine.
External collaborators (the Rust side of the vtable) are oracles: a wake call
receives the poll outcome the vtable call would produce, a stream send
receives the RustSendResult the channel would return.  Moves are modelled
value-preservingly.
-/

namespace CxxAsync

/-- enum class FuturePollStatus, cxx_async.h. Tag values Pending = 0,
Complete = 1, Error = 2, Running = 3. -/
inductive FuturePollStatus where
  | Pending
  | Complete
  | Error
  | Running
deriving DecidableEq, Repr

/-- enum class FutureWakeStatus, cxx_async.h. Tag values Pending = 0,
Complete = 1, Error = 2, Dead = 3. -/
inductive FutureWakeStatus where
  | Pending
  | Complete
  | Error
  | Dead
deriving DecidableEq, Repr

/-- enum class RustSendResult, cxx_async.h. -/
inductive RustSendResult where
  | Wait
  | Sent
  | Finished
deriving DecidableEq, Repr

/-- The integer tag of a FuturePollStatus value, as used by the C++
static_cast to uint32_t. -/
def FuturePollStatus.toNat : FuturePollStatus → Nat
  | .Pending => 0
  | .Complete => 1
  | .Error => 2
  | .Running => 3

/-- The FutureWakeStatus value a C++ static_cast produces from an integer
tag. Tags 0, 1, 2, 3 are the declared enumerators; the source only ever casts
tags of FuturePollStatus values, which lie in that range. -/
def wakeStatusOfTag : Nat → FutureWakeStatus
  | 0 => .Pending
  | 1 => .Complete
  | 2 => .Error
  | _ => .Dead

/-- static_cast of a FuturePollStatus value to FutureWakeStatus, as
performed at the end of RustFutureReceiver::wake.  Note Running maps to
Dead (both have tag 3). -/
def castPollToWake (s : FuturePollStatus) : FutureWakeStatus :=
  wakeStatusOfTag s.toNat

/-- wake_status_is_done, cxx_async.h line 234. -/
def wake_status_is_done (status : FutureWakeStatus) : Bool :=
  status = FutureWakeStatus.Complete ∨ status = FutureWakeStatus.Error

/-- A poll status is terminal when it is Complete or Error.  Spec-side
predicate used to state the once-only completion claims. -/
def FuturePollStatus.isTerminal (s : FuturePollStatus) : Bool :=
  s = FuturePollStatus.Complete ∨ s = FuturePollStatus.Error

/-- union RustFutureResult, cxx_async.h line 284: holds either a result
value or an error message string; starts uninitialised and is filled by
placement new. -/
inductive RustFutureResult (R : Type) where
  | uninit
  | value (v : R)
  | exception (msg : String)
deriving DecidableEq, Repr

/-- The outcome of one call through the vtable to future_poll: the status
code it returns, and what (if anything) it wrote into the result slot it was
pointed at. -/
structure PollOutcome (R : Type) where
  ret : FuturePollStatus
  write : Option (RustFutureResult R)
deriving DecidableEq, Repr

/-- class RustFutureReceiver, cxx_async.h line 307: the mutex-guarded poll
status and the result slot.  The mutex itself is not part of the state; it
serialises wake calls, which the embedding reflects by treating a run of
wake calls as a sequence. -/
structure RustFutureReceiver (R : Type) where
  m_status : FuturePollStatus
  m_result : RustFutureResult R
deriving DecidableEq, Repr

/-- What the result slot holds after a poll: future_poll may write over the
slot through its out-pointer or leave it as it was. -/
def updateSlot {R : Type} (old : RustFutureResult R)
    (w : Option (RustFutureResult R)) : RustFutureResult R :=
  match w with
  | none => old
  | some written => written

/-- Everything one call to RustFutureReceiver::wake does: the receiver state
before and after, the returned FutureWakeStatus, whether future_poll was
invoked, and whether wake itself released the coroutine reference it was
passed. -/
structure WakeEffect (R : Type) where
  pre : RustFutureReceiver R
  receiver : RustFutureReceiver R
  ret : FutureWakeStatus
  polled : Bool
  releasedCoroutine : Bool
deriving DecidableEq, Repr

/-- RustFutureReceiver::wake, cxx_async.h lines 638-653, under the lock.
If the status is no longer Pending the coroutine reference is released and
Dead is returned without polling; otherwise future_poll runs, its status is
stored, and the stored status cast to FutureWakeStatus is returned. -/
def RustFutureReceiver.wake {R : Type} (recv : RustFutureReceiver R)
    (poll : PollOutcome R) : WakeEffect R :=
  if recv.m_status ≠ FuturePollStatus.Pending then
    { pre := recv
      receiver := recv
      ret := FutureWakeStatus.Dead
      polled := false
      releasedCoroutine := true }
  else
    { pre := recv
      receiver := { m_status := poll.ret
                    m_result := updateSlot recv.m_result poll.write }
      ret := castPollToWake poll.ret
      polled := true
      releasedCoroutine := false }

/-- A sequence of wake calls on one receiver (serialised by its mutex),
each with the poll outcome the vtable would produce for it. -/
def wakeRun {R : Type} (recv : RustFutureReceiver R) :
    List (PollOutcome R) → List (WakeEffect R)
  | [] => []
  | p :: ps =>
    let e := recv.wake p
    e :: wakeRun e.receiver ps

lemma wake_of_not_pending {R : Type} (recv : RustFutureReceiver R)
    (p : PollOutcome R) (h : recv.m_status ≠ FuturePollStatus.Pending) :
    recv.wake p =
      { pre := recv, receiver := recv, ret := FutureWakeStatus.Dead,
        polled := false, releasedCoroutine := true } := by
  simp [RustFutureReceiver.wake, h]

lemma countP_wakeRun_zero {R : Type} (ps : List (PollOutcome R))
    (recv : RustFutureReceiver R) (h : recv.m_status ≠ FuturePollStatus.Pending) :
    (wakeRun recv ps).countP
      (fun e => e.polled && e.receiver.m_status.isTerminal) = 0 := by
  induction ps with
  | nil => simp [wakeRun]
  | cons p ps ih =>
    rw [wakeRun]
    simp only [wake_of_not_pending recv p h, List.countP_cons]
    simpa using ih

lemma countP_wakeRun_le_one {R : Type} (ps : List (PollOutcome R))
    (recv : RustFutureReceiver R) :
    (wakeRun recv ps).countP
      (fun e => e.polled && e.receiver.m_status.isTerminal) ≤ 1 := by
  induction ps generalizing recv with
  | nil => simp [wakeRun]
  | cons p ps ih =>
    rw [wakeRun]
    by_cases h : recv.m_status = FuturePollStatus.Pending
    · have hst : (recv.wake p).receiver.m_status = p.ret := by
        simp [RustFutureReceiver.wake, h]
      have hp : (recv.wake p).polled = true := by
        simp [RustFutureReceiver.wake, h]
      rw [List.countP_cons]
      by_cases ht : p.ret.isTerminal
      · have hnp : (recv.wake p).receiver.m_status ≠ FuturePollStatus.Pending := by
          rw [hst]
          intro hc
          rw [hc] at ht
          simp [FuturePollStatus.isTerminal] at ht
        rw [countP_wakeRun_zero ps _ hnp]
        simp [hp, hst, ht]
      · have htail := ih (recv.wake p).receiver
        simp only [hp, hst, ht, Bool.and_false, if_neg, Bool.true_and]
        simpa using htail
    · rw [List.countP_cons]
      have hd := wake_of_not_pending recv p h
      have hz := countP_wakeRun_zero ps (recv.wake p).receiver (by rw [hd]; exact h)
      rw [hz]
      simp [hd]

lemma wakeRun_dead_path {R : Type} (ps : List (PollOutcome R))
    (recv : RustFutureReceiver R) :
    ∀ e ∈ wakeRun recv ps, e.pre.m_status ≠ FuturePollStatus.Pending →
      e.polled = false ∧ e.releasedCoroutine = true ∧
      e.ret = FutureWakeStatus.Dead ∧ e.receiver = e.pre := by
  induction ps generalizing recv with
  | nil =>
    intro e he
    simp [wakeRun] at he
  | cons p ps ih =>
    intro e he hpre
    rw [wakeRun] at he
    rcases List.mem_cons.mp he with rfl | htail
    · by_cases h : recv.m_status = FuturePollStatus.Pending
      · exfalso
        apply hpre
        simp [RustFutureReceiver.wake, h]
      · simp [wake_of_not_pending recv p h]
    · exact ih (recv.wake p).receiver e htail hpre

/-- C1: for every RustFutureReceiver and every sequence of wake calls on it,
at most one wake call both invokes future_poll and leaves the status
terminal (Complete or Error), so the status transitions from Pending to a
terminal status at most once; and every wake call whose pre-status is
already non-Pending performs no poll, releases the coroutine reference it
was passed, returns Dead, and leaves the receiver unchanged. -/
theorem wake_terminal_transition_once {R : Type}
    (recv : RustFutureReceiver R) (polls : List (PollOutcome R)) :
    (wakeRun recv polls).countP
        (fun e => e.polled && e.receiver.m_status.isTerminal) ≤ 1
    ∧ ∀ e ∈ wakeRun recv polls, e.pre.m_status ≠ FuturePollStatus.Pending →
        e.polled = false ∧ e.releasedCoroutine = true ∧
        e.ret = FutureWakeStatus.Dead ∧ e.receiver = e.pre :=
  ⟨countP_wakeRun_le_one polls recv, wakeRun_dead_path polls recv⟩

theorem wake_terminal_transition_once_witness :
    ((wakeRun ({ m_status := FuturePollStatus.Pending,
                 m_result := RustFutureResult.uninit } : RustFutureReceiver Nat)
        [{ ret := FuturePollStatus.Complete,
           write := some (RustFutureResult.value 7) },
         { ret := FuturePollStatus.Pending, write := none }]).countP
        (fun e => e.polled && e.receiver.m_status.isTerminal) ≤ 1)
    ∧ (({ pre := { m_status := FuturePollStatus.Complete,
                   m_result := RustFutureResult.value 7 },
          receiver := { m_status := FuturePollStatus.Complete,
                        m_result := RustFutureResult.value 7 },
          ret := FutureWakeStatus.Dead,
          polled := false,
          releasedCoroutine := true } : WakeEffect Nat).polled = false
       ∧ ({ pre := { m_status := FuturePollStatus.Complete,
                     m_result := RustFutureResult.value 7 },
            receiver := { m_status := FuturePollStatus.Complete,
                          m_result := RustFutureResult.value 7 },
            ret := FutureWakeStatus.Dead,
            polled := false,
            releasedCoroutine := true } : WakeEffect Nat).releasedCoroutine = true
       ∧ ({ pre := { m_status := FuturePollStatus.Complete,
                     m_result := RustFutureResult.value 7 },
            receiver := { m_status := FuturePollStatus.Complete,
                          m_result := RustFutureResult.value 7 },
            ret := FutureWakeStatus.Dead,
            polled := false,
            releasedCoroutine := true } : WakeEffect Nat).ret = FutureWakeStatus.Dead
       ∧ ({ pre := { m_status := FuturePollStatus.Complete,
                     m_result := RustFutureResult.value 7 },
            receiver := { m_status := FuturePollStatus.Complete,
                          m_result := RustFutureResult.value 7 },
            ret := FutureWakeStatus.Dead,
            polled := false,
            releasedCoroutine := true } : WakeEffect Nat).receiver
          = ({ pre := { m_status := FuturePollStatus.Complete,
                        m_result := RustFutureResult.value 7 },
               receiver := { m_status := FuturePollStatus.Complete,
                             m_result := RustFutureResult.value 7 },
               ret := FutureWakeStatus.Dead,
               polled := false,
               releasedCoroutine := true } : WakeEffect Nat).pre) := by
  have h := wake_terminal_transition_once
    ({ m_status := FuturePollStatus.Pending,
       m_result := RustFutureResult.uninit } : RustFutureReceiver Nat)
    [{ ret := FuturePollStatus.Complete,
       write := some (RustFutureResult.value 7) },
     { ret := FuturePollStatus.Pending, write := none }]
  exact ⟨h.1, h.2 _ (by decide) (by decide)⟩

/-- The observable outcome of RustFutureReceiver::get_result: return the
stored value by move, throw an Error carrying the stored message, or hit
CXXASYNC_ASSERT(false) followed by std::terminate.  unionMisuse marks the
undefined behaviour of reading the inactive member of the result union;
under the poll contract it is unreachable. -/
inductive GetResultOutcome (R : Type) where
  | ok (v : R)
  | raises (msg : String)
  | fatalAssert
  | unionMisuse
deriving DecidableEq, Repr

/-- RustFutureReceiver::get_result, cxx_async.h lines 329-343.  Reads the
union member selected by the status: the value on Complete, the exception
string on Error; Pending and Running assert false and terminate. -/
def RustFutureReceiver.get_result {R : Type} (recv : RustFutureReceiver R) :
    GetResultOutcome R :=
  match recv.m_status with
  | FuturePollStatus.Complete =>
    match recv.m_result with
    | RustFutureResult.value v => GetResultOutcome.ok v
    | _ => GetResultOutcome.unionMisuse
  | FuturePollStatus.Error =>
    match recv.m_result with
    | RustFutureResult.exception msg => GetResultOutcome.raises msg
    | _ => GetResultOutcome.unionMisuse
  | FuturePollStatus.Pending => GetResultOutcome.fatalAssert
  | FuturePollStatus.Running => GetResultOutcome.fatalAssert

/-- C2: get_result returns the stored value when the status is Complete,
raises a recoverable Error carrying the stored message when the status is
Error, and hits a fatal assertion (not a recoverable error) when the status
is still Pending or Running. -/
theorem get_result_cases {R : Type} (recv : RustFutureReceiver R) :
    (∀ v : R, recv.m_status = FuturePollStatus.Complete →
        recv.m_result = RustFutureResult.value v →
        recv.get_result = GetResultOutcome.ok v)
    ∧ (∀ msg : String, recv.m_status = FuturePollStatus.Error →
        recv.m_result = RustFutureResult.exception msg →
        recv.get_result = GetResultOutcome.raises msg)
    ∧ ((recv.m_status = FuturePollStatus.Pending ∨
        recv.m_status = FuturePollStatus.Running) →
        recv.get_result = GetResultOutcome.fatalAssert) := by
  refine ⟨?_, ?_, ?_⟩
  · intro v hs hr
    simp [RustFutureReceiver.get_result, hs, hr]
  · intro msg hs hr
    simp [RustFutureReceiver.get_result, hs, hr]
  · rintro (hs | hs) <;> simp [RustFutureReceiver.get_result, hs]

theorem get_result_cases_witness :
    ({ m_status := FuturePollStatus.Complete,
       m_result := RustFutureResult.value 42 } :
        RustFutureReceiver Nat).get_result = GetResultOutcome.ok 42
    ∧ ({ m_status := FuturePollStatus.Error,
         m_result := RustFutureResult.exception "boom" } :
          RustFutureReceiver Nat).get_result = GetResultOutcome.raises "boom"
    ∧ ({ m_status := FuturePollStatus.Pending,
         m_result := RustFutureResult.uninit } :
          RustFutureReceiver Nat).get_result = GetResultOutcome.fatalAssert := by
  refine ⟨?_, ?_, ?_⟩
  · exact (get_result_cases _).1 42 rfl rfl
  · exact (get_result_cases _).2.1 "boom" rfl rfl
  · exact (get_result_cases _).2.2 (Or.inl rfl)

/-- The value pointer passed to the vtable sender_send: null, a pointer to a
RustFutureResult union, or a pointer to an error message string. -/
inductive SendPayload (R : Type) where
  | nullPtr
  | resultPtr (r : RustFutureResult R)
  | messagePtr (s : String)
deriving DecidableEq, Repr

/-- One call through the vtable to sender_send: the uint32 status code, the
value pointer, and whether a waker pointer (an add_ref of the suspended
coroutine) was passed instead of nullptr. -/
structure SendRecord (R : Type) where
  status : Nat
  payload : SendPayload R
  waker : Bool
deriving DecidableEq, Repr

/-- class RustStreamAwaiter, cxx_async.h line 376: holds the pending yielded
value between the send attempt and a possible backpressure retry. -/
structure RustStreamAwaiter (R : Type) where
  m_value : R
deriving DecidableEq, Repr

/-- What RustStreamAwaiter::poll_next does after the send returns: either it
returns a FutureWakeStatus with the awaiter in its new state, or it hits
CXXASYNC_ASSERT(false) and std::terminate on RustSendResult::Finished. -/
inductive StreamPollOutcome (R : Type) where
  | returned (ret : FutureWakeStatus) (awaiter : RustStreamAwaiter R)
  | fatalAssert
deriving DecidableEq, Repr

/-- RustStreamAwaiter::poll_next, cxx_async.h lines 685-708.  The pending
value is moved into a RustFutureResult and sent tagged Running with the
coroutine (add_ref would be called on it) as the waker; on Sent the wake
status is Complete, on Wait the value is moved back into the awaiter and
the wake status is Pending, on Finished the assertion fires.  The argument
is the RustSendResult the channel returns for this attempt. -/
def RustStreamAwaiter.poll_next {R : Type} (aw : RustStreamAwaiter R)
    (send_result : RustSendResult) : SendRecord R × StreamPollOutcome R :=
  let result := RustFutureResult.value aw.m_value
  let send : SendRecord R :=
    { status := FuturePollStatus.Running.toNat
      payload := SendPayload.resultPtr result
      waker := true }
  match send_result with
  | RustSendResult.Sent =>
    (send, StreamPollOutcome.returned FutureWakeStatus.Complete aw)
  | RustSendResult.Wait =>
    (send, StreamPollOutcome.returned FutureWakeStatus.Pending
      { m_value := aw.m_value })
  | RustSendResult.Finished =>
    (send, StreamPollOutcome.fatalAssert)

/-- C3: poll_next always sends the pending value tagged Running with a
waker; on Sent it returns wake status Complete; on Wait the pending value is
restored unchanged into the awaiter and the wake status is Pending, so a
retried send observes the identical value; on Finished the fatal assertion
fires. -/
theorem stream_poll_next_spec {R : Type} (aw : RustStreamAwaiter R) :
    (∀ sr : RustSendResult, (aw.poll_next sr).1 =
        { status := FuturePollStatus.Running.toNat
          payload := SendPayload.resultPtr (RustFutureResult.value aw.m_value)
          waker := true })
    ∧ (aw.poll_next RustSendResult.Sent).2 =
        StreamPollOutcome.returned FutureWakeStatus.Complete aw
    ∧ (aw.poll_next RustSendResult.Wait).2 =
        StreamPollOutcome.returned FutureWakeStatus.Pending aw
    ∧ (∀ sr : RustSendResult,
        (RustStreamAwaiter.poll_next { m_value := aw.m_value } sr).1.payload =
          SendPayload.resultPtr (RustFutureResult.value aw.m_value))
    ∧ (aw.poll_next RustSendResult.Finished).2 = StreamPollOutcome.fatalAssert := by
  refine ⟨?_, rfl, rfl, ?_, rfl⟩
  · intro sr
    cases sr <;> rfl
  · intro sr
    cases sr <;> rfl

/-- The log of sender_send calls made through the vtable for one promise:
the channel side the Promise drives. -/
structure PromiseState (R : Type) where
  sends : List (SendRecord R)
deriving DecidableEq, Repr

/-- A call to vtable->sender_send appends one record to the log. -/
def PromiseState.sender_send {R : Type} (st : PromiseState R) (status : Nat)
    (payload : SendPayload R) (waker : Bool) : PromiseState R :=
  { sends := st.sends ++ [{ status := status, payload := payload, waker := waker }] }

/-- A C++ exception as the default trycatch observes it: by the message its
what() member returns. -/
structure CppException where
  whatMsg : String
deriving DecidableEq, Repr

/-- behavior::TryCatch default, cxx_async.h lines 157-167: catches any
std::exception and hands fail its what() text. -/
def trycatchDefault (e : CppException) : String := e.whatMsg

/-- RustPromiseBase::unhandled_exception, cxx_async.h lines 539-550: runs
the exception through the pluggable TryCatch strategy and sends the
resulting message tagged Error with a null waker. -/
def PromiseState.unhandled_exception {R : Type} (st : PromiseState R)
    (strategy : CppException → String) (e : CppException) : PromiseState R :=
  st.sender_send FuturePollStatus.Error.toNat
    (SendPayload.messagePtr (strategy e)) false

/-- RustPromise::return_value (non-void specialization), cxx_async.h lines
612-620: moves the value into a RustFutureResult and sends a pointer to it
tagged Complete with a null waker. -/
def PromiseState.return_value {R : Type} (st : PromiseState R) (v : R) :
    PromiseState R :=
  st.sender_send FuturePollStatus.Complete.toNat
    (SendPayload.resultPtr (RustFutureResult.value v)) false

/-- RustPromise::return_void (void specialization), cxx_async.h lines
628-634: sends a null payload tagged Complete with a null waker. -/
def PromiseState.return_void {R : Type} (st : PromiseState R) : PromiseState R :=
  st.sender_send FuturePollStatus.Complete.toNat SendPayload.nullPtr false

/-- C8: unhandled_exception routes the failure through the TryCatch
strategy and performs exactly one sender_send tagged Error carrying the
message the strategy produced; with the default strategy that message is
the exception text, so a failure with message boom yields one Error send
carrying boom. -/
theorem unhandled_failure_sends_error {R : Type} (st : PromiseState R)
    (e : CppException) :
    (st.unhandled_exception trycatchDefault e).sends =
      st.sends ++ [{ status := FuturePollStatus.Error.toNat,
                     payload := SendPayload.messagePtr e.whatMsg,
                     waker := false }]
    ∧ (PromiseState.unhandled_exception (R := R) { sends := [] }
        trycatchDefault { whatMsg := "boom" }).sends =
      [{ status := FuturePollStatus.Error.toNat,
         payload := SendPayload.messagePtr "boom",
         waker := false }] :=
  ⟨rfl, rfl⟩

/-- C9: on normal completion the Promise performs exactly one sender_send
tagged Complete; return_value packages the value into a RustFutureResult
and passes its pointer, return_void passes a null payload; neither passes a
waker pointer. -/
theorem return_sends_complete_once {R : Type} (st : PromiseState R) (v : R) :
    (st.return_value v).sends =
      st.sends ++ [{ status := FuturePollStatus.Complete.toNat,
                     payload := SendPayload.resultPtr (RustFutureResult.value v),
                     waker := false }]
    ∧ (st.return_void).sends =
      st.sends ++ [{ status := FuturePollStatus.Complete.toNat,
                     payload := SendPayload.nullPtr,
                     waker := false }] :=
  ⟨rfl, rfl⟩

/-- Observable events of the SuspendedCoroutine lifecycle: the attached
continuation being resumed or destroyed, the coroutine object being deleted,
a CXXASYNC_ASSERT failing, and the wake function being invoked. -/
inductive CoroEvent where
  | contResumed
  | contDestroyed
  | objDeleted
  | assertFailed
  | wokeFuture
deriving DecidableEq, Repr

/-- class SuspendedCoroutine, cxx_async.h line 435: the atomic reference
count, whether the continuation (m_next) is still attached, and whether the
object is still allocated. -/
structure CoroObj where
  m_refcount : Nat
  m_next : Bool
  alive : Bool
deriving DecidableEq, Repr

/-- The SuspendedCoroutine constructor, cxx_async.h line 450: reference
count one, continuation attached. -/
def newSuspendedCoroutine : CoroObj :=
  { m_refcount := 1, m_next := true, alive := true }

/-- The SuspendedCoroutine destructor, cxx_async.h lines 453-458: if a
continuation is still attached it is destroyed (destroy, not resume). -/
def destructorEvents (c : CoroObj) : List CoroEvent :=
  if c.m_next then [CoroEvent.contDestroyed] else []

/-- SuspendedCoroutine::add_ref, cxx_async.h lines 460-463: atomic
increment. -/
def CoroObj.add_ref (c : CoroObj) : CoroObj × List CoroEvent :=
  ({ c with m_refcount := c.m_refcount + 1 }, [])

/-- SuspendedCoroutine::release, cxx_async.h lines 465-471: fetch_sub
returns the pre-decrement count, CXXASYNC_ASSERT requires it positive (the
failing assert aborts before anything else is observable), and the object
is deleted exactly when the pre-decrement count was one; delete runs the
destructor. -/
def CoroObj.release (c : CoroObj) : CoroObj × List CoroEvent :=
  let last := c.m_refcount
  if last = 0 then (c, [CoroEvent.assertFailed])
  else if last = 1 then
    ({ m_refcount := 0, m_next := false, alive := false },
      destructorEvents c ++ [CoroEvent.objDeleted])
  else ({ c with m_refcount := last - 1 }, [])

/-- The reference-counting calls the producer runtime may issue on a waker. -/
inductive RefOp where
  | addRef
  | release
deriving DecidableEq, Repr

def applyRefOp (c : CoroObj) : RefOp → CoroObj × List CoroEvent
  | RefOp.addRef => c.add_ref
  | RefOp.release => c.release

/-- A serialised interleaving of add_ref and release calls (the atomic
counter linearises them), with the emitted events concatenated. -/
def runRefOps (c : CoroObj) : List RefOp → CoroObj × List CoroEvent
  | [] => (c, [])
  | op :: ops =>
    let r1 := applyRefOp c op
    let r2 := runRefOps r1.1 ops
    (r2.1, r1.2 ++ r2.2)

lemma runRefOps_balanced (ops : List RefOp) (c : CoroObj)
    (hnext : c.m_next = true) (hpos : 0 < c.m_refcount)
    (hbal : ops.count RefOp.release = ops.count RefOp.addRef + c.m_refcount)
    (hpre : ∀ n, n < ops.length →
      (ops.take n).count RefOp.release <
        (ops.take n).count RefOp.addRef + c.m_refcount) :
    runRefOps c ops =
      ({ m_refcount := 0, m_next := false, alive := false },
        [CoroEvent.contDestroyed, CoroEvent.objDeleted]) := by
  induction ops generalizing c with
  | nil =>
    exfalso
    simp [List.count_nil] at hbal
    omega
  | cons op ops ih =>
    cases op with
    | addRef =>
      have hstep : applyRefOp c RefOp.addRef =
          ({ c with m_refcount := c.m_refcount + 1 }, []) := rfl
      have hrec := ih { c with m_refcount := c.m_refcount + 1 }
        hnext (Nat.succ_pos _)
        (by
          simp [List.count_cons] at hbal ⊢
          omega)
        (by
          intro n hn
          have := hpre (n + 1) (by simpa using Nat.succ_lt_succ hn)
          simp [List.count_cons, List.take_succ_cons] at this ⊢
          omega)
      rw [runRefOps, hstep]
      simpa using hrec
    | release =>
      rcases Nat.lt_or_ge 1 c.m_refcount with hgt | hle
      · -- pre-decrement count at least two: plain decrement, no deletion
        have hne0 : c.m_refcount ≠ 0 := by omega
        have hne1 : c.m_refcount ≠ 1 := by omega
        have hstep : applyRefOp c RefOp.release =
            ({ c with m_refcount := c.m_refcount - 1 }, []) := by
          simp [applyRefOp, CoroObj.release, hne0, hne1]
        have hrec := ih { c with m_refcount := c.m_refcount - 1 }
          hnext (by show 0 < c.m_refcount - 1; omega)
          (by
            simp [List.count_cons] at hbal ⊢
            omega)
          (by
            intro n hn
            have := hpre (n + 1) (by simpa using Nat.succ_lt_succ hn)
            simp [List.count_cons, List.take_succ_cons] at this ⊢
            omega)
        rw [runRefOps, hstep]
        simpa using hrec
      · -- pre-decrement count exactly one: this release deletes the object
        have h1 : c.m_refcount = 1 := by omega
        have hstep : applyRefOp c RefOp.release =
            ({ m_refcount := 0, m_next := false, alive := false },
              [CoroEvent.contDestroyed, CoroEvent.objDeleted]) := by
          simp [applyRefOp, CoroObj.release, h1, destructorEvents, hnext]
        have hops : ops = [] := by
          cases ops with
          | nil => rfl
          | cons op2 ops2 =>
            exfalso
            have := hpre 1 (by simp)
            simp [List.count_cons, h1] at this
        subst hops
        rw [runRefOps, hstep]
        simp [runRefOps]

/-- C4: a SuspendedCoroutine starts with reference count one, and for every
interleaving of balanced add_ref and release calls (each proper prefix
releases no more references than have been handed out, and in total every
reference is released) the object is deleted exactly once, by the release
that brings the count to zero, and the destructor destroys (does not
resume) the still-attached continuation: the complete event trace is one
contDestroyed followed by one objDeleted, with no assertion failure and no
resume. -/
theorem suspended_coroutine_refcount_spec (ops : List RefOp)
    (hbal : ops.count RefOp.release = ops.count RefOp.addRef + 1)
    (hpre : ∀ n, n < ops.length →
      (ops.take n).count RefOp.release < (ops.take n).count RefOp.addRef + 1) :
    newSuspendedCoroutine.m_refcount = 1
    ∧ (runRefOps newSuspendedCoroutine ops).2 =
        [CoroEvent.contDestroyed, CoroEvent.objDeleted]
    ∧ (runRefOps newSuspendedCoroutine ops).1.alive = false
    ∧ (runRefOps newSuspendedCoroutine ops).1.m_refcount = 0 := by
  have h := runRefOps_balanced ops newSuspendedCoroutine rfl Nat.one_pos hbal hpre
  exact ⟨rfl, by rw [h], by rw [h], by rw [h]⟩

theorem suspended_coroutine_refcount_spec_witness :
    newSuspendedCoroutine.m_refcount = 1
    ∧ (runRefOps newSuspendedCoroutine
        [RefOp.addRef, RefOp.release, RefOp.release]).2 =
        [CoroEvent.contDestroyed, CoroEvent.objDeleted]
    ∧ (runRefOps newSuspendedCoroutine
        [RefOp.addRef, RefOp.release, RefOp.release]).1.alive = false
    ∧ (runRefOps newSuspendedCoroutine
        [RefOp.addRef, RefOp.release, RefOp.release]).1.m_refcount = 0 :=
  suspended_coroutine_refcount_spec [RefOp.addRef, RefOp.release, RefOp.release]
    (by decide) (by decide)

/-- C10: release asserts that the pre-decrement reference count is strictly
positive: releasing an already-zero-count coroutine fails the assertion
(aborting, with no deletion and no counter underflow) rather than silently
underflowing or double-deleting, and deletion happens exactly on the call
whose pre-decrement count was one. -/
theorem release_underflow_assert (c : CoroObj) :
    (c.m_refcount = 0 → c.release = (c, [CoroEvent.assertFailed]))
    ∧ (0 < c.m_refcount →
        (CoroEvent.assertFailed ∉ c.release.2
        ∧ (c.m_refcount = 1 →
            c.release.2.count CoroEvent.objDeleted = 1
            ∧ c.release.1.alive = false)
        ∧ (1 < c.m_refcount →
            c.release.2 = []
            ∧ c.release.1.m_refcount = c.m_refcount - 1
            ∧ c.release.1.alive = c.alive))) := by
  constructor
  · intro h0
    simp [CoroObj.release, h0]
  · intro hpos
    have hne0 : c.m_refcount ≠ 0 := by omega
    refine ⟨?_, ?_, ?_⟩
    · by_cases h1 : c.m_refcount = 1
      · simp [CoroObj.release, hne0, h1, destructorEvents]
      · simp [CoroObj.release, hne0, h1]
    · intro h1
      simp [CoroObj.release, h1, destructorEvents]
      by_cases hn : c.m_next <;> simp [hn, List.count_cons]
    · intro hgt
      have h1 : c.m_refcount ≠ 1 := by omega
      simp [CoroObj.release, hne0, h1]

theorem release_underflow_assert_witness :
    (({ m_refcount := 0, m_next := true, alive := true } : CoroObj).release =
      ({ m_refcount := 0, m_next := true, alive := true },
        [CoroEvent.assertFailed]))
    ∧ (({ m_refcount := 1, m_next := true, alive := true } :
          CoroObj).release.2.count CoroEvent.objDeleted = 1)
    ∧ (({ m_refcount := 2, m_next := true, alive := true } :
          CoroObj).release.2 = []) := by
  refine ⟨?_, ?_, ?_⟩
  · exact (release_underflow_assert _).1 rfl
  · exact (((release_underflow_assert
      ({ m_refcount := 1, m_next := true, alive := true } : CoroObj)).2
        (by decide)).2.1 rfl).1
  · exact (((release_underflow_assert
      ({ m_refcount := 2, m_next := true, alive := true } : CoroObj)).2
        (by decide)).2.2 (by decide)).1

/-- SuspendedCoroutine::initial_suspend, cxx_async.h lines 482-494: performs
one wake (the wokeFuture event; the argument is the FutureWakeStatus the
wake function returns), detaches the continuation when the status is done,
releases the reference it consumed, and returns true exactly when the
coroutine should stay suspended. -/
def CoroObj.initial_suspend (c : CoroObj) (status : FutureWakeStatus) :
    (CoroObj × List CoroEvent) × Bool :=
  let done := wake_status_is_done status
  let c1 := if done then { c with m_next := false } else c
  let r := c1.release
  ((r.1, CoroEvent.wokeFuture :: r.2), !done)

/-- C5: initial_suspend performs exactly one wake attempt and consumes one
reference; if the wake reports a terminal state (Complete or Error) it
detaches the continuation, so neither a resume nor a destructor destroy of
the continuation can happen here, and returns false (continue
synchronously); on Pending or Dead it returns true (suspend). -/
theorem initial_suspend_spec (c : CoroObj) (status : FutureWakeStatus)
    (hnext : c.m_next = true) (hpos : 0 < c.m_refcount) :
    (c.initial_suspend status).2 = !(wake_status_is_done status)
    ∧ (c.initial_suspend status).1.2.count CoroEvent.wokeFuture = 1
    ∧ (c.initial_suspend status).1.1.m_refcount = c.m_refcount - 1
    ∧ (wake_status_is_done status = true →
        (c.initial_suspend status).1.1.m_next = false
        ∧ (c.initial_suspend status).1.2.count CoroEvent.contDestroyed = 0
        ∧ (c.initial_suspend status).1.2.count CoroEvent.contResumed = 0
        ∧ (c.initial_suspend status).2 = false)
    ∧ (wake_status_is_done status = false → (c.initial_suspend status).2 = true) := by
  obtain ⟨rc, next, alv⟩ := c
  simp only [CoroObj.m_next] at hnext
  subst hnext
  simp only [CoroObj.m_refcount] at hpos
  have hne : rc ≠ 0 := by omega
  by_cases h1 : rc = 1
  · subst h1
    cases status <;>
      simp [CoroObj.initial_suspend, wake_status_is_done, CoroObj.release,
        destructorEvents, List.count_cons]
  · cases status <;>
      simp [CoroObj.initial_suspend, wake_status_is_done, CoroObj.release,
        destructorEvents, hne, h1, List.count_cons]

theorem initial_suspend_spec_witness :
    (({ m_refcount := 1, m_next := true, alive := true } :
        CoroObj).initial_suspend FutureWakeStatus.Complete).2 = false
    ∧ (({ m_refcount := 1, m_next := true, alive := true } :
        CoroObj).initial_suspend
          FutureWakeStatus.Complete).1.2.count CoroEvent.contDestroyed = 0 := by
  have h := initial_suspend_spec
    { m_refcount := 1, m_next := true, alive := true }
    FutureWakeStatus.Complete rfl Nat.one_pos
  exact ⟨(h.2.2.2.1 rfl).2.2.2, (h.2.2.2.1 rfl).2.1⟩

/-- The calls that can consume the attached continuation: resume (from a
wake) and the destructor. -/
inductive ConsumeOp where
  | resumeCall
  | destructorCall
deriving DecidableEq, Repr

/-- SuspendedCoroutine::resume, cxx_async.h lines 496-501 (assert the
continuation is attached, detach it, then invoke it) and the destructor,
lines 453-458 (destroy the continuation if still attached). -/
def applyConsumeOp (c : CoroObj) : ConsumeOp → CoroObj × List CoroEvent
  | ConsumeOp.resumeCall =>
    if c.m_next then ({ c with m_next := false }, [CoroEvent.contResumed])
    else (c, [CoroEvent.assertFailed])
  | ConsumeOp.destructorCall =>
    ({ c with m_next := false, alive := false }, destructorEvents c)

/-- A sequence of resume and destructor calls; a failing CXXASYNC_ASSERT
terminates the process, so nothing runs after it. -/
def runConsumeOps (c : CoroObj) : List ConsumeOp → CoroObj × List CoroEvent
  | [] => (c, [])
  | op :: ops =>
    let r1 := applyConsumeOp c op
    if CoroEvent.assertFailed ∈ r1.2 then r1
    else
      let r2 := runConsumeOps r1.1 ops
      (r2.1, r1.2 ++ r2.2)

lemma runConsumeOps_bound (ops : List ConsumeOp) (c : CoroObj) :
    (runConsumeOps c ops).2.count CoroEvent.contResumed
      + (runConsumeOps c ops).2.count CoroEvent.contDestroyed
      ≤ if c.m_next then 1 else 0 := by
  induction ops generalizing c with
  | nil => simp [runConsumeOps]
  | cons op ops ih =>
    cases op with
    | resumeCall =>
      by_cases hn : c.m_next
      · have htail := ih { c with m_next := false }
        rw [runConsumeOps]
        simp only [applyConsumeOp, hn, if_true]
        simp [List.count_append, List.count_cons] at htail ⊢
        omega
      · rw [runConsumeOps]
        simp [applyConsumeOp, hn]
    | destructorCall =>
      have htail := ih { c with m_next := false, alive := false }
      rw [runConsumeOps]
      by_cases hn : c.m_next <;>
        simp [applyConsumeOp, destructorEvents, hn, List.count_append,
          List.count_cons] at htail ⊢ <;>
        omega

/-- C6: starting from a freshly created SuspendedCoroutine with its
continuation attached, no sequence of resume and destructor calls fires the
continuation more than once: across the whole run at most one contResumed
or contDestroyed event occurs, because both resume and the destructor
detach the continuation pointer the moment they consume it. -/
theorem continuation_consumed_at_most_once (ops : List ConsumeOp) :
    (runConsumeOps newSuspendedCoroutine ops).2.count CoroEvent.contResumed
      + (runConsumeOps newSuspendedCoroutine ops).2.count CoroEvent.contDestroyed
      ≤ 1 := by
  have h := runConsumeOps_bound ops newSuspendedCoroutine
  simpa [newSuspendedCoroutine] using h

/-- What one delivery of the wake callback built by RustAwaiter::await_suspend
does: the returned status, whether future_poll ran, whether the coroutine was
add_ref'd into the wake, and the receiver state afterwards (none when the
weak reference did not resolve, so the receiver was never dereferenced). -/
structure CallbackEffect (R : Type) where
  ret : FutureWakeStatus
  polled : Bool
  addRefd : Bool
  receiverAfter : Option (RustFutureReceiver R)
deriving DecidableEq, Repr

/-- The wake callback captured by RustAwaiter::await_suspend, cxx_async.h
lines 655-672: it locks the weak reference to the receiver; if the receiver
is gone it returns Dead, otherwise it add_refs the coroutine and forwards to
RustFutureReceiver::wake.  The first argument is what weak_ptr::lock
produced, the second the poll outcome the vtable would give. -/
def awaiterWakeCallback {R : Type} (locked : Option (RustFutureReceiver R))
    (poll : PollOutcome R) : CallbackEffect R :=
  match locked with
  | none =>
    { ret := FutureWakeStatus.Dead
      polled := false
      addRefd := false
      receiverAfter := none }
  | some recv =>
    let e := recv.wake poll
    { ret := e.ret
      polled := e.polled
      addRefd := true
      receiverAfter := some e.receiver }

/-- C7: a wake delivered after the receiver has been destroyed (the weak
reference no longer resolves) returns Dead without dereferencing the
receiver and without polling: abandonment is a no-op outcome, not an
error. -/
theorem abandoned_wake_returns_dead {R : Type} (poll : PollOutcome R) :
    awaiterWakeCallback (R := R) none poll =
      { ret := FutureWakeStatus.Dead
        polled := false
        addRefd := false
        receiverAfter := none } := rfl
